import Mathlib

/-!
# Verification of the tic-tac-toe backend (src/main.py)

Shallow embedding of the game-state synchronization subsystem of the
tic-tac-toe backend: the board engine (`check_win`), the game store gateway
(`get_game_by_id`, `update_game`), the connection registry and broadcast
dispatcher (`broadcast_game_update`, `sendToAll`), the move coordinator
(`make_move`), the start coordinator (`start_game`), the chat handler
(`handleChatMessage`) and the stats endpoints (`update_stats`, `get_stats`).

Store I/O is modelled by explicit state passing: the `games` table is a
`List Game`, the `stats` table a `List StatsRow`, the `messages` table a
`List ChatRow`.  Socket sends are modelled by an environment
`sendOk : Nat → Bool` saying whether sending to a given socket id succeeds,
and each handler returns the list of `(socket id, message)` pairs it
actually delivered.
-/

namespace TTT

/-- A mark on the board: the source uses the strings "X" and "O". -/
inductive Sym
  | X
  | O
deriving DecidableEq

/-- A cell of the board: Python `None`, `"X"` or `"O"`. -/
abbrev Cell := Option Sym

/-- The `winner` column: `"X"`, `"O"` or `"draw"` (absent while in progress). -/
inductive Outcome
  | X
  | O
  | draw
deriving DecidableEq

/-- The winner value written for a winning symbol (`winner = symbol`). -/
def Outcome.ofSym : Sym → Outcome
  | Sym.X => Outcome.X
  | Sym.O => Outcome.O

/-- Outcome of `json.loads` on a string-typed board column, abstracted to the
array-of-arrays reading that the source's shape check inspects:
`fail` is a `json.JSONDecodeError`, `nonGrid` is a JSON value that is not an
array of arrays (the `isinstance` checks in `get_game_by_id` fail on it),
and `rows v` is an array of arrays of cell values. -/
inductive ParseOutcome
  | fail
  | nonGrid
  | rows (v : List (List Cell))
deriving DecidableEq

/-- The `board` column as stored: either a JSON array value (a Python list
of lists after the client library parses the row) or a string. -/
inductive StoredBoard
  | grid (v : List (List Cell))
  | str (p : ParseOutcome)
deriving DecidableEq

/-- The shape check from `get_game_by_id` / `update_game`:
`isinstance(b, list) and len(b) == 3 and all(isinstance(r, list) and len(r) == 3 for r in b)`. -/
def is3x3 (v : List (List Cell)) : Bool :=
  v.length = 3 && v.all fun r => r.length = 3

/-- Decoding a string-typed board: parse it and keep it only if the parse
succeeds and the 3x3 shape check passes (both failure branches of the source
return `None` / skip the update). -/
def stringBoardDecode : ParseOutcome → Option (List (List Cell))
  | ParseOutcome.rows v => if is3x3 v then some v else none
  | _ => none

/-- One row of the `games` table. -/
structure Game where
  id : String
  creator_id : Nat
  creator_name : String
  opponent_id : Option Nat
  opponent_name : Option String
  current_turn : Option Nat
  board : StoredBoard
  game_started : Bool
  winner : Option Outcome
  created_at : String
deriving DecidableEq

/-- Python truthiness of a nullable integer id (`None` and `0` are falsy). -/
def truthyId : Option Nat → Bool
  | none => false
  | some n => !(n = 0)

/-- The rows of a board that `get_game_by_id` has already normalized: after a
successful read the `board` field is always a `grid`.  (The `str` case is
unreachable on that path; it is mapped to `[]`.) -/
def gridRows : StoredBoard → List (List Cell)
  | StoredBoard.grid v => v
  | StoredBoard.str _ => []

/-- `board[i][j]` with safe indexing: `some c` when both indices are in
range. On the 3x3 boards that reach the board engine every access is in
range, so this coincides with Python's indexing. -/
def cellAt (b : List (List Cell)) (i j : Nat) : Option Cell :=
  (b.get? i).bind fun r => r.get? j

/-- `board[row][col] = symbol`: replace one cell, leaving the board unchanged
when the row index is out of range (unreachable after a successful read). -/
def setCell (b : List (List Cell)) (i j : Nat) (c : Cell) : List (List Cell) :=
  match b.get? i with
  | some r => b.set i (r.set j c)
  | none => b

/-- `all(board[i][j] == symbol for j in range(3))` — row `i` is entirely `s`. -/
def rowAll (b : List (List Cell)) (i : Nat) (s : Sym) : Bool :=
  (List.range 3).all fun j => decide (cellAt b i j = some (some s))

/-- `all(board[j][i] == symbol for j in range(3))` — column `i` is entirely `s`. -/
def colAll (b : List (List Cell)) (i : Nat) (s : Sym) : Bool :=
  (List.range 3).all fun j => decide (cellAt b j i = some (some s))

/-- `check_win(board, symbol)` from the source: the loop over `i` with the
early `return True` is the `any`, followed by the two diagonal checks. -/
def check_win (b : List (List Cell)) (s : Sym) : Bool :=
  ((List.range 3).any fun i => rowAll b i s || colAll b i s)
    || (List.range 3).all (fun i => decide (cellAt b i i = some (some s)))
    || (List.range 3).all (fun i => decide (cellAt b i (2 - i) = some (some s)))

/-- `all(cell is not None for r in board for cell in r)` — the draw check. -/
def boardFull (b : List (List Cell)) : Bool :=
  b.all fun r => r.all fun c => c.isSome

/-- The specification predicate for C2, written from the spec's words: at
least one of the 3 rows, 3 columns or 2 diagonals consists entirely of the
symbol. -/
def winningLine (b : List (List Cell)) (s : Sym) : Prop :=
  (∃ i : Fin 3, ∀ j : Fin 3, cellAt b i j = some (some s)) ∨
  (∃ i : Fin 3, ∀ j : Fin 3, cellAt b j i = some (some s)) ∨
  (∀ i : Fin 3, cellAt b i i = some (some s)) ∨
  (∀ i : Fin 3, cellAt b i (2 - (i : Nat)) = some (some s))

instance (b : List (List Cell)) (s : Sym) : Decidable (winningLine b s) := by
  unfold winningLine; infer_instance

/-! ## Game store gateway (`get_game_by_id`, `update_game`) -/

/-- Board normalization on read, from `get_game_by_id`: a board stored as a
JSON value is returned as-is (the source applies no shape check on that
branch), while a board stored as a string is parsed and shape-checked; both
failure branches return `None`. -/
def decodeGame (g : Game) : Option Game :=
  match g.board with
  | StoredBoard.grid _ => some g
  | StoredBoard.str p =>
    (stringBoardDecode p).map fun v => { g with board := StoredBoard.grid v }

/-- `get_game_by_id`: `select * where id = game_id`, then normalize the board
of the first row.  `none` covers both "no row" and the corrupt-string-board
abort. -/
def get_game_by_id (store : List Game) (gid : String) : Option Game :=
  (store.find? fun g => g.id = gid).bind decodeGame

/-- A partial update of a `games` row, one `Option` per column the source
ever sends; `none` leaves the column untouched. -/
structure GameUpdate where
  board : Option StoredBoard
  current_turn : Option (Option Nat)
  winner : Option (Option Outcome)
  game_started : Option Bool
  opponent_id : Option (Option Nat)
  opponent_name : Option (Option String)

/-- Apply a partial update to one row. -/
def applyUpdate (u : GameUpdate) (g : Game) : Game :=
  { g with
    board := u.board.getD g.board
    current_turn := u.current_turn.getD g.current_turn
    winner := u.winner.getD g.winner
    game_started := u.game_started.getD g.game_started
    opponent_id := u.opponent_id.getD g.opponent_id
    opponent_name := u.opponent_name.getD g.opponent_name }

/-- `update(data).eq("id", game_id)`: every matching row receives the update. -/
def doUpdate (store : List Game) (gid : String) (u : GameUpdate) : List Game :=
  store.map fun g => if g.id = gid then applyUpdate u g else g

/-- `update_game`: if the outgoing board is a string it is parsed and
shape-checked first; on failure the whole update is skipped (the source
`return`s without touching the store).  A board already in list form is sent
as-is, without validation. -/
def update_game (store : List Game) (gid : String) (u : GameUpdate) : List Game :=
  match u.board with
  | some (StoredBoard.str p) =>
    match stringBoardDecode p with
    | some v =>
      doUpdate store gid
        ⟨some (StoredBoard.grid v), u.current_turn, u.winner, u.game_started,
          u.opponent_id, u.opponent_name⟩
    | none => store
  | _ => doUpdate store gid u

/-! ## Connection registry and broadcast dispatcher -/

/-- One entry of `active_connections[game_id]`: a weak reference to a socket.
`alive` says whether `ref()` still returns the socket, `sid` identifies the
socket object for the send environment. -/
structure Handle where
  sid : Nat
  alive : Bool
deriving DecidableEq

/-- `active_connections`: game id to the registered handles, in insertion
order. -/
abbrev Registry := List (String × List Handle)

/-- The handles registered for a game id (`[]` when the key is absent). -/
def lookupReg (reg : Registry) (gid : String) : List Handle :=
  match reg.find? (fun e => e.1 = gid) with
  | some e => e.2
  | none => []

/-- Registration performed by the viewer endpoint `game_websocket`:
create the key if needed, then append the weak reference. -/
def register_viewer (reg : Registry) (gid : String) (h : Handle) : Registry :=
  if (reg.find? fun e => e.1 = gid).isSome then
    reg.map fun e => if e.1 = gid then (e.1, e.2 ++ [h]) else e
  else reg ++ [(gid, [h])]

/-- A message pushed over a socket: the viewer payload
`{"type": "game", **game}` or the chat payload
`{"type": "chat", username, text, timestamp}`. -/
inductive Msg
  | game (g : Game)
  | chat (username : String) (text : String) (timestamp : Nat)
deriving DecidableEq

/-- The send loop shared by `broadcast_game_update` and `chat_websocket`:
for each weak reference, dereference it, skip it when dead, attempt the send
when live, and on failure log and continue with the remaining handles.  The
returned list records the successful deliveries in order.  No handle is ever
removed from the registry here (the source loop never mutates
`active_connections`). -/
def sendToAll (sendOk : Nat → Bool) : List Handle → Msg → List (Nat × Msg)
  | [], _ => []
  | h :: rest, m =>
    if h.alive then
      (if sendOk h.sid then [(h.sid, m)] else []) ++ sendToAll sendOk rest m
    else sendToAll sendOk rest m

/-- `broadcast_game_update`: fetch the game (no-op when absent or corrupt),
tag the full record as a `game` message and push it to every registered
handle.  Returns the deliveries and the (unchanged) registry. -/
def broadcast_game_update (sendOk : Nat → Bool) (games : List Game)
    (reg : Registry) (gid : String) : List (Nat × Msg) × Registry :=
  match get_game_by_id games gid with
  | none => ([], reg)
  | some g => (sendToAll sendOk (lookupReg reg gid) (Msg.game g), reg)

/-! ## Stats ledger (`update_stats`, `get_stats`) -/

/-- One row of the `stats` table.  A row inserted on first contact has its
unnamed counters at the column default `0`. -/
structure StatsRow where
  user_id : Nat
  username : String
  wins : Nat
  losses : Nat
  draws : Nat
deriving DecidableEq

/-- The counter column named by `field` in `update_stats`. -/
inductive StatField
  | wins
  | losses
  | draws
deriving DecidableEq

/-- Read one counter. -/
def getField (f : StatField) (r : StatsRow) : Nat :=
  match f with
  | StatField.wins => r.wins
  | StatField.losses => r.losses
  | StatField.draws => r.draws

/-- Write one counter. -/
def setField (f : StatField) (n : Nat) (r : StatsRow) : StatsRow :=
  match f with
  | StatField.wins => { r with wins := n }
  | StatField.losses => { r with losses := n }
  | StatField.draws => { r with draws := n }

/-- The row inserted on first contact: only the incremented field is sent,
the other counters take the column default `0`. -/
def initRow (uid : Nat) (uname : String) (f : StatField) : StatsRow :=
  setField f 1 ⟨uid, uname, 0, 0, 0⟩

/-- `update_stats`: skip falsy ids, then read-modify-write the counter of the
first matching row (the update is keyed on `user_id`, so every matching row
receives the incremented value), inserting a fresh row when none exists. -/
def update_stats (stats : List StatsRow) (uid : Nat) (uname : String)
    (f : StatField) : List StatsRow :=
  if uid = 0 then stats
  else
    match stats.find? (fun r => r.user_id = uid) with
    | some r0 =>
      stats.map fun r =>
        if r.user_id = uid then setField f (getField f r0 + 1) r else r
    | none => stats ++ [initRow uid uname f]

/-- `get_stats` (the `/api/stats` handler after authentication): select the
player's row; answer with it when present, otherwise answer with zero
counters and the player's id and first name.  The handler only reads, so the
stats table is returned unchanged. -/
def get_stats (stats : List StatsRow) (uid : Nat) (uname : String) :
    StatsRow × List StatsRow :=
  match stats.find? (fun r => r.user_id = uid) with
  | some r => (r, stats)
  | none => (⟨uid, uname, 0, 0, 0⟩, stats)

/-! ## Chat handler (`chat_websocket`, one received message) -/

/-- One row of the `messages` table. -/
structure ChatRow where
  game_id : String
  user_id : Nat
  username : String
  text : String
deriving DecidableEq

/-- Handling of one authenticated chat message: insert the persisted row
(text truncated to 100 characters), build the chat payload, and push it over
every handle in `active_connections[game_id]` — the single shared registry,
which only the viewer endpoint populates; the chat endpoint registers
nothing. -/
def handleChatMessage (sendOk : Nat → Bool) (msgs : List ChatRow)
    (reg : Registry) (gid : String) (uid : Nat) (firstName : String)
    (text : String) (now : Nat) : List ChatRow × List (Nat × Msg) :=
  let row : ChatRow := ⟨gid, uid, firstName, text.take 100⟩
  let payload := Msg.chat firstName (text.take 100) now
  (msgs ++ [row], sendToAll sendOk (lookupReg reg gid) payload)

/-! ## Move coordinator (`make_move`) and start coordinator (`start_game`) -/

/-- The client-visible rejections raised by the coordinators, one constructor
per `raise` site.  `gameOverOrOutOfTurn` is the single
`400 "Сейчас не ваша очередь ходить"` raised both when `winner` is already
set (game over) and when the caller is not the player on turn. -/
inductive Err
  | invalidCoordinates
  | notFound
  | notStarted
  | gameOverOrOutOfTurn
  | cellOccupied
  | serverError
  | cannotStart
  | notOpponent
deriving DecidableEq

/-- The data the validation phase of `make_move` hands to the effect phase:
the loaded game, the mover's symbol, the board after the move, and the
computed `winner` and `current_turn` values. -/
structure MovePlan where
  game : Game
  symbol : Sym
  newBoard : List (List Cell)
  winner : Option Outcome
  next_turn : Option Nat
deriving DecidableEq

/-- The validation and board phase of `make_move`, in source order:
coordinate range check, load (`NotFound`), `game_started` check, the combined
winner/turn check, symbol from the identity-vs-creator comparison, occupancy
check, then win before draw and the turn flip. -/
def moveDecision (games : List Game) (uid : Nat) (gid : String)
    (row col : Int) : Except Err MovePlan :=
  if ¬ (0 ≤ row ∧ row ≤ 2 ∧ 0 ≤ col ∧ col ≤ 2) then Except.error Err.invalidCoordinates
  else
    match get_game_by_id games gid with
    | none => Except.error Err.notFound
    | some game =>
      if ¬ game.game_started then Except.error Err.notStarted
      else if game.winner.isSome ∨ game.current_turn ≠ some uid then
        Except.error Err.gameOverOrOutOfTurn
      else
        let symbol := if uid = game.creator_id then Sym.X else Sym.O
        match cellAt (gridRows game.board) row.toNat col.toNat with
        | none => Except.error Err.serverError
        | some (some _) => Except.error Err.cellOccupied
        | some none =>
          let newBoard := setCell (gridRows game.board) row.toNat col.toNat (some symbol)
          let winner :=
            if check_win newBoard symbol then some (Outcome.ofSym symbol)
            else if boardFull newBoard then some Outcome.draw
            else none
          let next_turn :=
            if winner.isSome then none
            else if uid = game.creator_id then game.opponent_id
            else some game.creator_id
          Except.ok ⟨game, symbol, newBoard, winner, next_turn⟩

/-- Everything a `make_move` request produces: the HTTP-visible result, the
two tables after the request, and the broadcast deliveries. -/
structure MoveEffects where
  result : Except Err Unit
  games : List Game
  stats : List StatsRow
  sends : List (Nat × Msg)

/-- The stats block of `make_move`: on `"X"` the creator's `wins` then (when
the opponent id is truthy) the opponent's `losses`; on `"O"` only when the
opponent id is truthy, the opponent's `wins` then the creator's `losses`; on
a draw both `draws`. -/
def recordOutcomes (stats : List StatsRow) (game : Game)
    (winner : Option Outcome) : List StatsRow :=
  match winner with
  | none => stats
  | some Outcome.X =>
    let s1 := update_stats stats game.creator_id game.creator_name StatField.wins
    if truthyId game.opponent_id then
      update_stats s1 (game.opponent_id.getD 0)
        (game.opponent_name.getD "Unknown") StatField.losses
    else s1
  | some Outcome.O =>
    if truthyId game.opponent_id then
      update_stats
        (update_stats stats (game.opponent_id.getD 0)
          (game.opponent_name.getD "Unknown") StatField.wins)
        game.creator_id game.creator_name StatField.losses
    else stats
  | some Outcome.draw =>
    let s1 := update_stats stats game.creator_id game.creator_name StatField.draws
    if truthyId game.opponent_id then
      update_stats s1 (game.opponent_id.getD 0)
        (game.opponent_name.getD "Unknown") StatField.draws
    else s1

/-- `make_move`: every rejection returns before any write, so the tables come
back unchanged and nothing is broadcast; an accepted move persists board,
turn and winner as one update, runs the stats block when a winner was just
decided, and broadcasts the new state. -/
def make_move (sendOk : Nat → Bool) (games : List Game)
    (stats : List StatsRow) (reg : Registry) (uid : Nat) (gid : String)
    (row col : Int) : MoveEffects :=
  match moveDecision games uid gid row col with
  | Except.error e => ⟨Except.error e, games, stats, []⟩
  | Except.ok p =>
    let games2 := update_game games gid
      ⟨some (StoredBoard.grid p.newBoard), some p.next_turn, some p.winner,
        none, none, none⟩
    ⟨Except.ok (), games2, recordOutcomes stats p.game p.winner,
      (broadcast_game_update sendOk games2 reg gid).1⟩

/-- The validation phase of `start_game`: load (`NotFound`), reject when the
opponent id is falsy or the game already started, reject when the caller is
not the opponent (the source compares the decimal string forms, which agree
with integer equality). -/
def startDecision (games : List Game) (uid : Nat) (gid : String) :
    Except Err Game :=
  match get_game_by_id games gid with
  | none => Except.error Err.notFound
  | some game =>
    if truthyId game.opponent_id = false ∨ game.game_started then
      Except.error Err.cannotStart
    else if some uid ≠ game.opponent_id then Except.error Err.notOpponent
    else Except.ok game

/-- Everything a `start_game` request produces. -/
structure StartEffects where
  result : Except Err Unit
  games : List Game
  sends : List (Nat × Msg)

/-- `start_game`: on success set `game_started` and hand the first turn to
the creator, then broadcast. -/
def start_game (sendOk : Nat → Bool) (games : List Game) (reg : Registry)
    (uid : Nat) (gid : String) : StartEffects :=
  match startDecision games uid gid with
  | Except.error e => ⟨Except.error e, games, []⟩
  | Except.ok game =>
    let games2 := update_game games gid
      ⟨none, some (some game.creator_id), none, some true, none, none⟩
    ⟨Except.ok (), games2, (broadcast_game_update sendOk games2 reg gid).1⟩

/-- Spec-side predicate for C5, written from the spec's words: the stored
board value decodes to a 3x3 grid. -/
def decodesTo3x3 : StoredBoard → Bool
  | StoredBoard.grid v => is3x3 v
  | StoredBoard.str p => (stringBoardDecode p).isSome

/-! ## Concrete sample data for witnesses and counterexamples -/

/-- The all-empty 3x3 board (`[[None]*3 for _ in range(3)]`). -/
def emptyBoard : List (List Cell) :=
  [[none, none, none], [none, none, none], [none, none, none]]

/-- A finished game (used by the C1 witness): the top row is `X X X`. -/
def gameC1 : Game :=
  ⟨"g1", 1, "alice", some 2, some "bob", none,
    StoredBoard.grid
      [[some Sym.X, some Sym.X, some Sym.X],
       [some Sym.O, some Sym.O, none],
       [none, none, none]],
    true, some Outcome.X, "2024-01-01 00:00:00"⟩

/-- A board whose top row is entirely `X` (C2 witness). -/
def topRowXBoard : List (List Cell) :=
  [[some Sym.X, some Sym.X, some Sym.X],
   [some Sym.O, some Sym.O, none],
   [none, none, none]]

/-- An in-progress game with eight cells filled (C3 witness): the creator's
move at `(0,2)` both completes the top row and fills the last cell. -/
def gameC3 : Game :=
  ⟨"g3", 1, "alice", some 2, some "bob", some 1,
    StoredBoard.grid
      [[some Sym.X, some Sym.X, none],
       [some Sym.O, some Sym.O, some Sym.X],
       [some Sym.X, some Sym.O, some Sym.O]],
    true, none, "2024-01-01 00:00:00"⟩

/-- The plan `moveDecision` produces for the creator's move `(0,2)` on
`gameC3`: the move completes the top row and fills the board, and the win
check fires first. -/
def pC3 : MovePlan :=
  ⟨gameC3, Sym.X,
    [[some Sym.X, some Sym.X, some Sym.X],
     [some Sym.O, some Sym.O, some Sym.X],
     [some Sym.X, some Sym.O, some Sym.O]],
    some Outcome.X, none⟩

/-- A joined but not yet started game (C4 witness, start part). -/
def gameC4a : Game :=
  ⟨"g4", 1, "alice", some 2, some "bob", some 1,
    StoredBoard.grid emptyBoard, false, none, "2024-01-01 00:00:00"⟩

/-- A started game on an empty board (C4 witness, move part). -/
def gameC4b : Game :=
  ⟨"h4", 1, "alice", some 2, some "bob", some 1,
    StoredBoard.grid emptyBoard, true, none, "2024-01-01 00:00:00"⟩

/-- A game whose stored board is a JSON value of two rows — not a 3x3 grid
(C5 counterexample). -/
def gameC5 : Game :=
  ⟨"g5", 1, "alice", some 2, some "bob", some 1,
    StoredBoard.grid [[none, none, none], [none, none, none]],
    true, none, "2024-01-01 00:00:00"⟩

/-- A game whose stored board is a string that is not valid JSON (C5
witness). -/
def gameC5s : Game :=
  ⟨"s5", 1, "alice", some 2, some "bob", some 1,
    StoredBoard.str ParseOutcome.fail, true, none, "2024-01-01 00:00:00"⟩

/-- A healthy started game (C6 counterexample). -/
def gameC6 : Game :=
  ⟨"g6", 1, "alice", some 2, some "bob", some 1,
    StoredBoard.grid emptyBoard, true, none, "2024-01-01 00:00:00"⟩

/-! # Theorems -/

/-! ## Shared helper lemmas -/

/-- Per-socket isolation of the send loop: a live handle whose send succeeds
receives the message no matter what happens on the other handles. -/
theorem sendToAll_mem (sendOk : Nat → Bool) (hs : List Handle) (m : Msg)
    (h : Handle) (hmem : h ∈ hs) (hal : h.alive = true)
    (hok : sendOk h.sid = true) : (h.sid, m) ∈ sendToAll sendOk hs m := by
  induction hs with
  | nil => cases hmem
  | cons a rest ih =>
    cases hmem with
    | head =>
      unfold sendToAll
      rw [hal, hok]
      simp
    | tail _ htail =>
      unfold sendToAll
      by_cases ha : a.alive = true
      · rw [ha]
        simp only [if_true]
        exact List.mem_append_right _ (ih htail)
      · rw [Bool.not_eq_true] at ha
        rw [ha]
        simp only [Bool.false_eq_true, if_false]
        exact ih htail

/-- `applyUpdate` never touches the id column. -/
theorem applyUpdate_id (u : GameUpdate) (g : Game) :
    (applyUpdate u g).id = g.id := rfl

/-- Updating all rows with a given id moves `find?` through the update. -/
theorem find?_doUpdate (store : List Game) (gid : String) (u : GameUpdate)
    (g0 : Game) (h : store.find? (fun g => g.id = gid) = some g0) :
    (doUpdate store gid u).find? (fun g => g.id = gid) =
      some (applyUpdate u g0) := by
  induction store with
  | nil => simp [List.find?] at h
  | cons a rest ih =>
    by_cases ha : a.id = gid
    · rw [List.find?_cons_of_pos _ (by simp [ha])] at h
      cases h
      unfold doUpdate
      simp only [List.map_cons, if_pos ha]
      exact List.find?_cons_of_pos _ (by simp [applyUpdate_id, ha])
    · rw [List.find?_cons_of_neg _ (by simp [ha])] at h
      unfold doUpdate
      simp only [List.map_cons, if_neg ha]
      rw [List.find?_cons_of_neg _ (by simp [ha])]
      exact ih h

/-- Decoding a row whose board is already a grid is the identity. -/
theorem decodeGame_grid {g : Game} {v : List (List Cell)}
    (h : g.board = StoredBoard.grid v) : decodeGame g = some g := by
  unfold decodeGame
  rw [h]

/-- Decoding a row whose board is a string applies `stringBoardDecode`. -/
theorem decodeGame_str {g : Game} {p : ParseOutcome}
    (h : g.board = StoredBoard.str p) :
    decodeGame g =
      (stringBoardDecode p).map fun v => { g with board := StoredBoard.grid v } := by
  unfold decodeGame
  rw [h]

/-- Reading back through the gateway after an update that carries no board or
a board already in grid form: the stored row is the updated row. -/
theorem get_game_by_id_update (store : List Game) (gid : String)
    (u : GameUpdate) (g : Game) (h : get_game_by_id store gid = some g)
    (hb : u.board = none ∨ ∃ v, u.board = some (StoredBoard.grid v)) :
    get_game_by_id (update_game store gid u) gid =
      some (applyUpdate u g) := by
  unfold get_game_by_id at h
  cases hf : store.find? (fun g => g.id = gid) with
  | none => rw [hf] at h; cases h
  | some g0 =>
    rw [hf, Option.some_bind] at h
    have hupdate : update_game store gid u = doUpdate store gid u := by
      rcases hb with hb | ⟨v, hb⟩ <;> simp [update_game, hb]
    rw [hupdate]
    unfold get_game_by_id
    rw [find?_doUpdate store gid u g0 hf, Option.some_bind]
    rcases hb with hb | ⟨v, hb⟩
    · cases hbd : g0.board with
      | grid w =>
        rw [decodeGame_grid hbd] at h
        injection h with h
        subst h
        exact decodeGame_grid (v := w) (by simp [applyUpdate, hb, hbd])
      | str p =>
        rw [decodeGame_str hbd] at h
        cases hp : stringBoardDecode p with
        | none => rw [hp] at h; cases h
        | some w =>
          rw [hp, Option.map_some'] at h
          injection h with h
          subst h
          rw [decodeGame_str (p := p) (by simp [applyUpdate, hb, hbd]), hp,
            Option.map_some']
          congr 1
          cases g0
          simp_all [applyUpdate]
    · rw [decodeGame_grid (v := v) (by simp [applyUpdate, hb])]
      congr 1
      cases hbd : g0.board with
      | grid w =>
        rw [decodeGame_grid hbd] at h
        injection h with h
        subst h
        rfl
      | str p =>
        rw [decodeGame_str hbd] at h
        cases hp : stringBoardDecode p with
        | none => rw [hp] at h; cases h
        | some w =>
          rw [hp, Option.map_some'] at h
          injection h with h
          subst h
          cases g0
          simp_all [applyUpdate]

/-- A rejected request leaves every effect empty: `make_move` on an error
decision returns the untouched tables and an empty delivery list. -/
theorem make_move_error {games uid gid row col e}
    (sendOk : Nat → Bool) (stats : List StatsRow) (reg : Registry)
    (h : moveDecision games uid gid row col = Except.error e) :
    make_move sendOk games stats reg uid gid row col =
      ⟨Except.error e, games, stats, []⟩ := by
  unfold make_move
  rw [h]

/-- An accepted request persists the plan and broadcasts the updated store. -/
theorem make_move_ok {games uid gid row col p}
    (sendOk : Nat → Bool) (stats : List StatsRow) (reg : Registry)
    (h : moveDecision games uid gid row col = Except.ok p) :
    make_move sendOk games stats reg uid gid row col =
      ⟨Except.ok (),
        update_game games gid
          ⟨some (StoredBoard.grid p.newBoard), some p.next_turn, some p.winner,
            none, none, none⟩,
        recordOutcomes stats p.game p.winner,
        (broadcast_game_update sendOk
          (update_game games gid
            ⟨some (StoredBoard.grid p.newBoard), some p.next_turn,
              some p.winner, none, none, none⟩) reg gid).1⟩ := by
  unfold make_move
  rw [h]

/-- Inversion of the validation phase: an accepted move pins down every guard
and every field of the plan. -/
theorem moveDecision_ok_inv {games : List Game} {uid : Nat} {gid : String}
    {row col : Int} {p : MovePlan}
    (h : moveDecision games uid gid row col = Except.ok p) :
    (0 ≤ row ∧ row ≤ 2 ∧ 0 ≤ col ∧ col ≤ 2) ∧
    get_game_by_id games gid = some p.game ∧
    p.game.game_started = true ∧
    p.game.winner = none ∧
    p.game.current_turn = some uid ∧
    cellAt (gridRows p.game.board) row.toNat col.toNat = some none ∧
    p.symbol = (if uid = p.game.creator_id then Sym.X else Sym.O) ∧
    p.newBoard =
      setCell (gridRows p.game.board) row.toNat col.toNat (some p.symbol) ∧
    p.winner =
      (if check_win p.newBoard p.symbol then some (Outcome.ofSym p.symbol)
        else if boardFull p.newBoard then some Outcome.draw else none) ∧
    p.next_turn =
      (if p.winner.isSome then none
        else if uid = p.game.creator_id then p.game.opponent_id
        else some p.game.creator_id) := by
  unfold moveDecision at h
  split at h
  · cases h
  · rename_i hcoords
    split at h
    · cases h
    · rename_i game hg
      split at h
      · cases h
      · rename_i hstarted
        split at h
        · cases h
        · rename_i hturn
          split at h <;>
          · rename_i hsym
            split at h
            · cases h
            · cases h
            · rename_i hcell
              injection h with h
              subst h
              push_neg at hstarted hturn
              refine ⟨not_not.mp hcoords, hg, by simpa using hstarted, ?_, ?_,
                hcell, by simp [hsym], rfl, rfl, by simp [hsym]⟩
              · simpa using hturn.1
              · simpa using hturn.2

/-! ## C2 -/

/-- `all` over `range 3` is a `Fin 3` quantifier. -/
theorem range3_all (p : Nat → Bool) :
    (List.range 3).all p = true ↔ ∀ i : Fin 3, p i.val = true := by
  rw [List.all_eq_true, Fin.forall_iff]
  constructor
  · intro h i hi
    exact h i (List.mem_range.mpr hi)
  · intro h i hi
    exact h i (List.mem_range.mp hi)

/-- `any` over `range 3` is a `Fin 3` quantifier. -/
theorem range3_any (p : Nat → Bool) :
    (List.range 3).any p = true ↔ ∃ i : Fin 3, p i.val = true := by
  rw [List.any_eq_true, Fin.exists_iff]
  constructor
  · rintro ⟨i, hi, hp⟩
    exact ⟨i, List.mem_range.mp hi, hp⟩
  · rintro ⟨i, hi, hp⟩
    exact ⟨i, List.mem_range.mpr hi, hp⟩

/-- Claim C2: for every 3x3 board and symbol, `check_win(board, symbol)`
returns true if and only if at least one of the 3 rows, 3 columns, or 2
diagonals consists entirely of that symbol.  (The equivalence in fact holds
without the shape hypothesis, because out-of-range accesses make both sides
false; the hypothesis records the claim's scope.) -/
theorem check_win_iff_winning_line (b : List (List Cell)) (s : Sym)
    (hb : is3x3 b = true) : check_win b s = true ↔ winningLine b s := by
  simp only [check_win, rowAll, colAll, winningLine, range3_any, range3_all,
    Bool.or_eq_true, decide_eq_true_eq, exists_or]
  tauto

/-- C2 witness: the equivalence applied to a concrete board whose top row is
entirely `X`. -/
theorem check_win_iff_winning_line_witness :
    check_win topRowXBoard Sym.X = true ↔ winningLine topRowXBoard Sym.X :=
  check_win_iff_winning_line topRowXBoard Sym.X (by decide)

/-! ## C1 -/

/-- Claim C1: every rejected make-move request (game not found, not yet
started, already finished, out of turn, bad coordinates, occupied cell)
leaves the stored tables unchanged and broadcasts nothing; in particular a
move on a game whose `winner` is already set is rejected — through the
combined game-over / out-of-turn raise site — with no state change and no
broadcast. -/
theorem make_move_rejection_frame (sendOk : Nat → Bool) (games : List Game)
    (stats : List StatsRow) (reg : Registry) (uid : Nat) (gid : String)
    (row col : Int) :
    (∀ e,
      (make_move sendOk games stats reg uid gid row col).result =
        Except.error e →
      (make_move sendOk games stats reg uid gid row col).games = games ∧
      (make_move sendOk games stats reg uid gid row col).stats = stats ∧
      (make_move sendOk games stats reg uid gid row col).sends = []) ∧
    (∀ game, get_game_by_id games gid = some game →
      game.game_started = true → game.winner.isSome = true →
      (0 ≤ row ∧ row ≤ 2 ∧ 0 ≤ col ∧ col ≤ 2) →
      (make_move sendOk games stats reg uid gid row col).result =
        Except.error Err.gameOverOrOutOfTurn) := by
  constructor
  · intro e h
    cases hd : moveDecision games uid gid row col with
    | error e2 =>
      rw [make_move_error sendOk stats reg hd]
      exact ⟨rfl, rfl, rfl⟩
    | ok p =>
      rw [make_move_ok sendOk stats reg hd] at h
      exact absurd h (by simp)
  · intro game hget hstart hwin hcoords
    have hd : moveDecision games uid gid row col =
        Except.error Err.gameOverOrOutOfTurn := by
      unfold moveDecision
      rw [if_neg (not_not_intro hcoords), hget]
      simp [hstart, hwin]
    rw [make_move_error sendOk stats reg hd]

/-- C1 witness: a concrete move against the finished game `gameC1` is
rejected and leaves the tables and the broadcast list untouched. -/
theorem make_move_rejection_frame_witness :
    (make_move (fun _ => true) [gameC1] [] [] 1 "g1" 0 0).result =
      Except.error Err.gameOverOrOutOfTurn ∧
    (make_move (fun _ => true) [gameC1] [] [] 1 "g1" 0 0).games = [gameC1] ∧
    (make_move (fun _ => true) [gameC1] [] [] 1 "g1" 0 0).stats = [] ∧
    (make_move (fun _ => true) [gameC1] [] [] 1 "g1" 0 0).sends = [] := by
  have h := make_move_rejection_frame (fun _ => true) [gameC1] [] [] 1 "g1" 0 0
  have hres := h.2 gameC1 rfl rfl rfl (by decide)
  have hframe := h.1 Err.gameOverOrOutOfTurn hres
  exact ⟨hres, hframe.1, hframe.2.1, hframe.2.2⟩

/-! ## C8 -/

/-- Claim C8 (amended): in `make_move` the coordinate range check precedes
the load, so out-of-range coordinates are rejected with
`InvalidCoordinates` even when the game id is absent from the store; for
in-range coordinates an absent game id yields `NotFound`. -/
theorem coordinate_check_precedes_load (sendOk : Nat → Bool)
    (games : List Game) (stats : List StatsRow) (reg : Registry) (uid : Nat)
    (gid : String) (row col : Int) :
    (¬ (0 ≤ row ∧ row ≤ 2 ∧ 0 ≤ col ∧ col ≤ 2) →
      (make_move sendOk games stats reg uid gid row col).result =
        Except.error Err.invalidCoordinates) ∧
    ((0 ≤ row ∧ row ≤ 2 ∧ 0 ≤ col ∧ col ≤ 2) →
      get_game_by_id games gid = none →
      (make_move sendOk games stats reg uid gid row col).result =
        Except.error Err.notFound) := by
  constructor
  · intro hc
    have hd : moveDecision games uid gid row col =
        Except.error Err.invalidCoordinates := by
      unfold moveDecision
      rw [if_pos hc]
    rw [make_move_error sendOk stats reg hd]
  · intro hc hg
    have hd : moveDecision games uid gid row col =
        Except.error Err.notFound := by
      unfold moveDecision
      rw [if_neg (not_not_intro hc), hg]
    rw [make_move_error sendOk stats reg hd]

/-- C8 counterexample to the claim as stated: a move naming an absent game id
with out-of-range coordinates is rejected with `InvalidCoordinates`, not
`NotFound` — the coordinate check runs before the load. -/
theorem absent_game_invalid_coords_cex :
    (make_move (fun _ => true) [] [] [] 1 "nope" 3 0).result =
      Except.error Err.invalidCoordinates ∧
    Err.invalidCoordinates ≠ Err.notFound := by
  exact ⟨rfl, by decide⟩

/-- C8 witness: both branches of the amended ordering at concrete inputs. -/
theorem coordinate_check_precedes_load_witness :
    (make_move (fun _ => true) [] [] [] 1 "w8" 3 0).result =
      Except.error Err.invalidCoordinates ∧
    (make_move (fun _ => true) [] [] [] 1 "w8" 0 1).result =
      Except.error Err.notFound := by
  refine ⟨(coordinate_check_precedes_load (fun _ => true) [] [] [] 1 "w8" 3 0).1
      (by decide),
    (coordinate_check_precedes_load (fun _ => true) [] [] [] 1 "w8" 0 1).2
      (by decide) rfl⟩

/-! ## Equation and inversion lemmas for `start_game` -/

/-- A rejected start request changes nothing and broadcasts nothing. -/
theorem start_game_error {games uid gid e} (sendOk : Nat → Bool)
    (reg : Registry) (h : startDecision games uid gid = Except.error e) :
    start_game sendOk games reg uid gid = ⟨Except.error e, games, []⟩ := by
  unfold start_game
  rw [h]

/-- An accepted start request flips `game_started` and hands the first turn
to the creator, then broadcasts the updated store. -/
theorem start_game_ok {games uid gid g2} (sendOk : Nat → Bool)
    (reg : Registry) (h : startDecision games uid gid = Except.ok g2) :
    start_game sendOk games reg uid gid =
      ⟨Except.ok (),
        update_game games gid
          ⟨none, some (some g2.creator_id), none, some true, none, none⟩,
        (broadcast_game_update sendOk
          (update_game games gid
            ⟨none, some (some g2.creator_id), none, some true, none, none⟩)
          reg gid).1⟩ := by
  unfold start_game
  rw [h]

/-- An accepted start request was validated against the stored game. -/
theorem startDecision_ok_inv {games : List Game} {uid : Nat} {gid : String}
    {g2 : Game} (h : startDecision games uid gid = Except.ok g2) :
    get_game_by_id games gid = some g2 := by
  unfold startDecision at h
  split at h
  · cases h
  · rename_i game hg
    split at h
    · cases h
    · split at h
      · cases h
      · injection h with h
        subst h
        exact hg

/-! ## C3 -/

/-- Claim C3: on every accepted move the win check for the mover's symbol is
evaluated before the draw check, so a post-move board that is simultaneously
full and winning for the mover is recorded with `winner` equal to the
mover's symbol — never `"draw"` — both in the plan and in the stored row. -/
theorem win_reported_before_draw (sendOk : Nat → Bool) (games : List Game)
    (stats : List StatsRow) (reg : Registry) (uid : Nat) (gid : String)
    (row col : Int) (p : MovePlan)
    (hd : moveDecision games uid gid row col = Except.ok p)
    (hfull : boardFull p.newBoard = true)
    (hwin : check_win p.newBoard p.symbol = true) :
    p.winner = some (Outcome.ofSym p.symbol) ∧
    p.winner ≠ some Outcome.draw ∧
    ∃ g',
      get_game_by_id
        (make_move sendOk games stats reg uid gid row col).games gid =
        some g' ∧
      g'.winner = some (Outcome.ofSym p.symbol) := by
  obtain ⟨hc, hget, hs, hw, ht, hcell, hsym, hboard, hwinner, hnext⟩ :=
    moveDecision_ok_inv hd
  have hW : p.winner = some (Outcome.ofSym p.symbol) := by
    rw [hwinner, if_pos hwin]
  refine ⟨hW, ?_, ?_⟩
  · rw [hW]
    intro hcontra
    injection hcontra with h2
    cases hps : p.symbol <;> rw [hps] at h2 <;> cases h2
  · rw [make_move_ok sendOk stats reg hd]
    refine ⟨applyUpdate
        ⟨some (StoredBoard.grid p.newBoard), some p.next_turn, some p.winner,
          none, none, none⟩ p.game, ?_, ?_⟩
    · exact get_game_by_id_update games gid
        ⟨some (StoredBoard.grid p.newBoard), some p.next_turn, some p.winner,
          none, none, none⟩ p.game hget (Or.inr ⟨p.newBoard, rfl⟩)
    · simpa [applyUpdate] using hW

/-- C3 witness: the creator's move `(0,2)` on `gameC3` completes the top row
and fills the last empty cell; the recorded winner is `"X"`, not `"draw"`. -/
theorem win_reported_before_draw_witness :
    pC3.winner = some (Outcome.ofSym pC3.symbol) ∧
    pC3.winner ≠ some Outcome.draw ∧
    ∃ g',
      get_game_by_id
        (make_move (fun _ => true) [gameC3] [] [] 1 "g3" 0 2).games "g3" =
        some g' ∧
      g'.winner = some (Outcome.ofSym pC3.symbol) :=
  win_reported_before_draw (fun _ => true) [gameC3] [] [] 1 "g3" 0 2 pC3
    rfl rfl rfl

/-! ## C4 -/

/-- Claim C4: after an accepted `start_game` the stored `current_turn` is the
creator; after an accepted non-terminal move the stored `current_turn` is
the other known player (creator and opponent alternate); and after any
accepted move the stored `current_turn` is absent exactly when `winner` is
set (given a known opponent). -/
theorem turn_alternation :
    (∀ (sendOk : Nat → Bool) (games : List Game) (reg : Registry)
      (uid : Nat) (gid : String) (game : Game),
      get_game_by_id games gid = some game →
      (start_game sendOk games reg uid gid).result = Except.ok () →
      ∃ g',
        get_game_by_id (start_game sendOk games reg uid gid).games gid =
          some g' ∧
        g'.current_turn = some game.creator_id) ∧
    (∀ (sendOk : Nat → Bool) (games : List Game) (stats : List StatsRow)
      (reg : Registry) (uid : Nat) (gid : String) (row col : Int)
      (game : Game) (o : Nat),
      get_game_by_id games gid = some game → game.opponent_id = some o →
      (make_move sendOk games stats reg uid gid row col).result =
        Except.ok () →
      ∃ g',
        get_game_by_id
          (make_move sendOk games stats reg uid gid row col).games gid =
          some g' ∧
        (g'.winner = none →
          g'.current_turn =
            some (if uid = game.creator_id then o else game.creator_id)) ∧
        (g'.current_turn = none ↔ g'.winner.isSome = true)) := by
  constructor
  · intro sendOk games reg uid gid game hget hok
    cases hsd : startDecision games uid gid with
    | error e =>
      rw [start_game_error sendOk reg hsd] at hok
      exact absurd hok (by simp)
    | ok g2 =>
      have hg2 : g2 = game := by
        have := startDecision_ok_inv hsd
        rw [hget] at this
        injection this with this
        exact this.symm
      subst hg2
      rw [start_game_ok sendOk reg hsd]
      refine ⟨applyUpdate
          ⟨none, some (some g2.creator_id), none, some true, none, none⟩ g2,
        ?_, ?_⟩
      · exact get_game_by_id_update games gid
          ⟨none, some (some g2.creator_id), none, some true, none, none⟩ g2
          hget (Or.inl rfl)
      · simp [applyUpdate]
  · intro sendOk games stats reg uid gid row col game o hget hopp hok
    cases hd : moveDecision games uid gid row col with
    | error e =>
      rw [make_move_error sendOk stats reg hd] at hok
      exact absurd hok (by simp)
    | ok p =>
      obtain ⟨hc, hget2, hs, hw, ht, hcell, hsym, hboard, hwinner, hnext⟩ :=
        moveDecision_ok_inv hd
      have hpg : p.game = game := by
        rw [hget] at hget2
        injection hget2 with h2
        exact h2.symm
      rw [make_move_ok sendOk stats reg hd]
      refine ⟨applyUpdate
          ⟨some (StoredBoard.grid p.newBoard), some p.next_turn,
            some p.winner, none, none, none⟩ p.game, ?_, ?_, ?_⟩
      · exact get_game_by_id_update games gid
          ⟨some (StoredBoard.grid p.newBoard), some p.next_turn,
            some p.winner, none, none, none⟩ p.game hget2
          (Or.inr ⟨p.newBoard, rfl⟩)
      · intro hwz
        simp only [applyUpdate, Option.getD_some] at hwz ⊢
        rw [hnext, hwz, hpg]
        simp only [Option.isSome_none, Bool.false_eq_true, if_false]
        by_cases hu : uid = game.creator_id <;> simp [hu, hopp]
      · simp only [applyUpdate, Option.getD_some]
        rw [hnext]
        cases hW : p.winner with
        | none =>
          simp only [Option.isSome_none, Bool.false_eq_true, if_false,
            iff_false]
          rw [hpg]
          by_cases hu : uid = game.creator_id <;> simp [hu, hopp]
        | some w => simp

/-- C4 witness: the opponent's accepted `start_game` on `gameC4a` hands the
first turn to the creator, and the creator's accepted opening move on
`gameC4b` hands the turn to the opponent, with `current_turn` present
exactly while `winner` is absent. -/
theorem turn_alternation_witness :
    (∃ g',
      get_game_by_id
        (start_game (fun _ => true) [gameC4a] [] 2 "g4").games "g4" =
        some g' ∧
      g'.current_turn = some gameC4a.creator_id) ∧
    (∃ g',
      get_game_by_id
        (make_move (fun _ => true) [gameC4b] [] [] 1 "h4" 0 0).games "h4" =
        some g' ∧
      (g'.winner = none →
        g'.current_turn =
          some (if 1 = gameC4b.creator_id then 2 else gameC4b.creator_id)) ∧
      (g'.current_turn = none ↔ g'.winner.isSome = true)) := by
  constructor
  · exact turn_alternation.1 (fun _ => true) [gameC4a] [] 2 "g4" gameC4a
      rfl rfl
  · exact turn_alternation.2 (fun _ => true) [gameC4b] [] [] 1 "h4" 0 0
      gameC4b 2 rfl rfl rfl

/-! ## C9 -/

/-- The broadcast loop never mutates the registry (helper). -/
theorem broadcast_registry_unchanged (sendOk : Nat → Bool)
    (games : List Game) (reg : Registry) (gid : String) :
    (broadcast_game_update sendOk games reg gid).2 = reg := by
  unfold broadcast_game_update
  cases h : get_game_by_id games gid <;> rfl

/-- Claim C9: `broadcast_game_update` is a deterministic function of the
stored game record — calling it twice in a row with no intervening mutation
of the store produces the identical deliveries (and the identical registry)
both times. -/
theorem broadcast_idempotent (sendOk : Nat → Bool) (games : List Game)
    (reg : Registry) (gid : String) :
    broadcast_game_update sendOk games
        (broadcast_game_update sendOk games reg gid).2 gid =
      broadcast_game_update sendOk games reg gid := by
  rw [broadcast_registry_unchanged]

/-! ## C6 -/

/-- Claim C6 (amended): a send failure on one registered socket does not
prevent delivery to the remaining sockets, and dead weak references are
skipped — but neither failed nor dead handles are removed from the registry
during a broadcast; the registry comes back unchanged (removal happens only
in the viewer endpoint's disconnect/error cleanup). -/
theorem broadcast_isolation_no_sweep :
    (∀ (sendOk : Nat → Bool) (hs : List Handle) (m : Msg) (h : Handle),
      h ∈ hs → h.alive = true → sendOk h.sid = true →
      (h.sid, m) ∈ sendToAll sendOk hs m) ∧
    (∀ (sendOk : Nat → Bool) (games : List Game) (reg : Registry)
      (gid : String), (broadcast_game_update sendOk games reg gid).2 = reg) :=
  ⟨sendToAll_mem, broadcast_registry_unchanged⟩

/-- C6 counterexample to the claim as stated: broadcasting `gameC6` over a
registry holding a dead handle (`⟨1, false⟩`) and a handle whose send fails
(`⟨2, true⟩` with every send failing) removes neither — the registry after
the broadcast still contains both. -/
theorem broadcast_no_sweep_cex :
    (broadcast_game_update (fun _ => false) [gameC6]
        [("g6", [⟨1, false⟩, ⟨2, true⟩])] "g6").2 =
      [("g6", [⟨1, false⟩, ⟨2, true⟩])] ∧
    Handle.mk 1 false ∈
      lookupReg (broadcast_game_update (fun _ => false) [gameC6]
        [("g6", [⟨1, false⟩, ⟨2, true⟩])] "g6").2 "g6" ∧
    Handle.mk 2 true ∈
      lookupReg (broadcast_game_update (fun _ => false) [gameC6]
        [("g6", [⟨1, false⟩, ⟨2, true⟩])] "g6").2 "g6" := by
  exact ⟨rfl, by decide, by decide⟩

/-- C6 witness: a live socket later in the list still receives the message
when the send to every other socket fails. -/
theorem broadcast_isolation_no_sweep_witness :
    ((2 : Nat), Msg.chat "w6" "hello" 0) ∈
      sendToAll (fun n => decide (n = 2))
        [⟨1, true⟩, ⟨2, true⟩] (Msg.chat "w6" "hello" 0) :=
  broadcast_isolation_no_sweep.1 (fun n => decide (n = 2))
    [⟨1, true⟩, ⟨2, true⟩] (Msg.chat "w6" "hello" 0) ⟨2, true⟩
    (by decide) rfl rfl

/-! ## C7 -/

/-- Claim C7 (amended): an accepted chat message is persisted with its text
truncated to 100 characters and rebroadcast as
`{type: "chat", username, text[:100], timestamp}` to the handles of the
single shared per-game registry — the one populated by the viewer endpoint;
the chat endpoint maintains no registry of its own. -/
theorem chat_persist_truncate_broadcast (sendOk : Nat → Bool)
    (msgs : List ChatRow) (reg : Registry) (gid : String) (uid : Nat)
    (firstName : String) (text : String) (now : Nat) :
    (handleChatMessage sendOk msgs reg gid uid firstName text now).1 =
      msgs ++ [⟨gid, uid, firstName, text.take 100⟩] ∧
    ∀ h, h ∈ lookupReg reg gid → h.alive = true → sendOk h.sid = true →
      (h.sid, Msg.chat firstName (text.take 100) now) ∈
        (handleChatMessage sendOk msgs reg gid uid firstName text now).2 := by
  refine ⟨rfl, ?_⟩
  intro h hmem hal hok
  exact sendToAll_mem sendOk (lookupReg reg gid) _ h hmem hal hok

set_option maxRecDepth 4000 in
/-- C7 counterexample to the claim as stated: with one socket registered
through the viewer endpoint and nothing else, the chat rebroadcast delivers
exactly to that viewer-channel socket — there is no separate chat-channel
registry to deliver to (the chat endpoint never registers a socket). -/
theorem chat_to_viewer_registry_cex :
    (handleChatMessage (fun _ => true) [] (register_viewer [] "g7" ⟨5, true⟩)
        "g7" 9 "carol" "hi" 42).2 = [(5, Msg.chat "carol" "hi" 42)] := by
  rfl

/-- C7 witness: persistence and delivery at a concrete input. -/
theorem chat_persist_truncate_broadcast_witness :
    (handleChatMessage (fun _ => true) [] (register_viewer [] "w7" ⟨3, true⟩)
        "w7" 8 "dana" "hey" 5).1 =
      [] ++ [⟨"w7", 8, "dana", "hey".take 100⟩] ∧
    ((3 : Nat), Msg.chat "dana" ("hey".take 100) 5) ∈
      (handleChatMessage (fun _ => true) [] (register_viewer [] "w7" ⟨3, true⟩)
        "w7" 8 "dana" "hey" 5).2 :=
  ⟨(chat_persist_truncate_broadcast (fun _ => true) []
      (register_viewer [] "w7" ⟨3, true⟩) "w7" 8 "dana" "hey" 5).1,
    (chat_persist_truncate_broadcast (fun _ => true) []
      (register_viewer [] "w7" ⟨3, true⟩) "w7" 8 "dana" "hey" 5).2
      ⟨3, true⟩ (by decide) rfl rfl⟩

/-! ## C5 -/

/-- Claim C5 (amended): a stored board that is a *string* failing to parse or
shape-check as a 3x3 grid aborts the operation: reads return `none` (no
guessed or repaired board is produced) and updates leave the store
untouched.  (Boards stored as JSON values are passed through without any
shape validation — see the counterexample.) -/
theorem string_board_corruption_aborts :
    (∀ (store : List Game) (gid : String) (g0 : Game) (p : ParseOutcome),
      store.find? (fun g => g.id = gid) = some g0 →
      g0.board = StoredBoard.str p → stringBoardDecode p = none →
      get_game_by_id store gid = none) ∧
    (∀ (store : List Game) (gid : String) (u : GameUpdate) (p : ParseOutcome),
      u.board = some (StoredBoard.str p) → stringBoardDecode p = none →
      update_game store gid u = store) := by
  constructor
  · intro store gid g0 p hf hb hp
    unfold get_game_by_id
    rw [hf, Option.some_bind, decodeGame_str hb, hp]
    rfl
  · intro store gid u p hb hp
    unfold update_game
    rw [hb]
    show (match stringBoardDecode p with
      | some v =>
        doUpdate store gid
          ⟨some (StoredBoard.grid v), u.current_turn, u.winner,
            u.game_started, u.opponent_id, u.opponent_name⟩
      | none => store) = store
    rw [hp]

/-- C5 counterexample to the claim as stated: `gameC5`'s stored board is a
JSON value of two rows — it does not decode to a 3x3 grid — yet the gateway
returns the game unchanged instead of aborting (the non-string branch is
never shape-checked), and the game is then broadcast with the malformed
board. -/
theorem grid_board_passthrough_cex :
    decodesTo3x3 gameC5.board = false ∧
    get_game_by_id [gameC5] "g5" = some gameC5 ∧
    (broadcast_game_update (fun _ => true) [gameC5]
        [("g5", [⟨4, true⟩])] "g5").1 = [(4, Msg.game gameC5)] := by
  exact ⟨rfl, rfl, rfl⟩

/-- C5 witness: a game stored with an unparseable string board is refused on
read and an update carrying such a board is skipped. -/
theorem string_board_corruption_aborts_witness :
    get_game_by_id [gameC5s] "s5" = none ∧
    update_game [gameC5s] "s5"
        ⟨some (StoredBoard.str ParseOutcome.fail), none, none, none, none,
          none⟩ = [gameC5s] :=
  ⟨string_board_corruption_aborts.1 [gameC5s] "s5" gameC5s ParseOutcome.fail
      rfl rfl rfl,
    string_board_corruption_aborts.2 [gameC5s] "s5"
      ⟨some (StoredBoard.str ParseOutcome.fail), none, none, none, none,
        none⟩ ParseOutcome.fail rfl rfl⟩

/-! ## C10 -/

/-- Claim C10: querying stats for an authenticated player with no stats row
answers zero wins, losses and draws together with the player's id and
display name, and inserts nothing — the stats table is unchanged by the
query. -/
theorem get_stats_absent_zero_no_insert (stats : List StatsRow) (uid : Nat)
    (uname : String)
    (h : stats.find? (fun r => r.user_id = uid) = none) :
    get_stats stats uid uname = (⟨uid, uname, 0, 0, 0⟩, stats) := by
  unfold get_stats
  rw [h]

/-- C10 witness: the query on an empty stats table. -/
theorem get_stats_absent_zero_no_insert_witness :
    get_stats [] 3 "dave" = (⟨3, "dave", 0, 0, 0⟩, []) :=
  get_stats_absent_zero_no_insert [] 3 "dave" rfl

end TTT
